import Mathlib

/-!
Verification of the aviation-compliance-checker rule engine.

The development shallowly embeds the repository's core: the rule catalog
(`src/rules.ts`), the `ComplianceChecker` engine (`checker.ts`:
`loadRules`, `checkFile`, `determineStatus`, `generateReport`,
`generateMarkdownReport`, `findFiles`, `checkFiles`) and the JS string
primitives the rules rely on (case-insensitive regex testing, first-match
extraction, and `new Date(string)` parsing).  Effects are made explicit:
a thrown exception inside a rule check is an `Except.error`, the global
clock read by `new Date()` is an explicit `now : Int` (milliseconds since
the epoch), globbing and file reading are function parameters, and
`console.error` logging is returned as a list of log lines.
-/

namespace Aviation

/-- Severity of a rule or of a violation (`'error' | 'warning' | 'info'`). -/
inductive Severity
  | error
  | warning
  | info
  deriving DecidableEq, Repr

/-- Rule category (`'maintenance' | 'pilot-log' | 'airworthiness' | 'weight-balance'`). -/
inductive Category
  | maintenance
  | pilotLog
  | airworthiness
  | weightBalance
  deriving DecidableEq, Repr

/-- Per-file status (`'PASS' | 'FAIL' | 'WARNING'`). -/
inductive Status
  | PASS
  | FAIL
  | WARNING
  deriving DecidableEq, Repr

/-- A single detected non-compliance instance (interface `ComplianceViolation`). -/
structure ComplianceViolation where
  ruleId : String
  line : Option Nat
  message : String
  severity : Severity
  regulation : String
  suggestion : Option String
  deriving DecidableEq, Repr

/-! ## JS regex primitives

The rules use JavaScript regexes with the `i` flag, via `.test` and
`String.prototype.match`.  We embed the exact patterns as terms of a small
regex language and give it JS semantics: leftmost match position, greedy
single-class repetition with backtracking preference, alternation tried
left to right, case-insensitive comparison. -/

/-- JS regex `\s` character class (ECMA-262 WhiteSpace and LineTerminator). -/
def jsSpace (c : Char) : Bool :=
  let n := c.toNat
  n == 32 || n == 9 || n == 10 || n == 13 || n == 11 || n == 12 ||
  n == 160 || n == 0x1680 || (decide (0x2000 ≤ n) && decide (n ≤ 0x200a)) ||
  n == 0x2028 || n == 0x2029 || n == 0x202f || n == 0x205f || n == 0x3000 || n == 0xfeff

/-- JS regex `\w` character class. -/
def isWordChar (c : Char) : Bool :=
  c.isAlphanum || c == '_'

/-- Single-character classes appearing in the repository's patterns. -/
inductive CC
  | digit
  | space
  | dotAny
  | alpha
  | alnum
  | oneOf (s : String)
  deriving Repr

/-- Does a character belong to the class (case-insensitively)? -/
def CC.test : CC → Char → Bool
  | .digit, c => c.isDigit
  | .space, c => jsSpace c
  | .dotAny, c => !(c == '\n' || c == '\r' || c.toNat == 0x2028 || c.toNat == 0x2029)
  | .alpha, c => c.isAlpha
  | .alnum, c => c.isAlphanum
  | .oneOf s, c => (s.toList.map Char.toLower).contains c.toLower

/-- Regex terms: literals, classes, bounded or unbounded greedy repetition of
a class, option, sequencing, alternation and the word boundary `\b`. -/
inductive RE
  | eps
  | lit (s : String)
  | cls (c : CC)
  | rep (c : CC) (lo : Nat) (hi : Option Nat)
  | opt (r : RE)
  | seq (a b : RE)
  | alt (a b : RE)
  | wordB
  deriving Repr

/-- Match a literal (case-insensitively) against the head of the input,
returning the consumed input characters and the rest. -/
def litMatch : List Char → List Char → Option (List Char × List Char)
  | [], cs => some ([], cs)
  | _ :: _, [] => none
  | p :: ps, c :: cs =>
      if p.toLower = c.toLower then
        (litMatch ps cs).map (fun pr => (c :: pr.1, pr.2))
      else none

/-- Candidate splits for a greedy class repetition `c{lo,hi}`, longest first. -/
def repMatches (c : CC) (lo : Nat) (hi : Option Nat) (cs : List Char) :
    List (List Char × List Char) :=
  let run := (cs.takeWhile (CC.test c)).length
  let top := match hi with
    | none => run
    | some h => min run h
  if lo ≤ top then
    (List.range (top + 1 - lo)).map (fun i => (cs.take (top - i), cs.drop (top - i)))
  else []

/-- Character preceding the position after consuming `u`, given the character
`p` preceding the whole match attempt (used for `\b`). -/
def lastChar (p : Option Char) (u : List Char) : Option Char :=
  match u.getLast? with
  | some c => some c
  | none => p

/-- All matches of a regex at the current position, as (consumed, rest) pairs
in JS backtracking preference order; `p` is the preceding character. -/
def matchRE : RE → Option Char → List Char → List (List Char × List Char)
  | .eps, _, cs => [([], cs)]
  | .lit s, _, cs =>
      match litMatch s.toList cs with
      | some pr => [pr]
      | none => []
  | .cls c, _, cs =>
      match cs with
      | [] => []
      | x :: xs => if CC.test c x then [([x], xs)] else []
  | .rep c lo hi, _, cs => repMatches c lo hi cs
  | .opt r, p, cs => matchRE r p cs ++ [([], cs)]
  | .seq a b, p, cs =>
      ((matchRE a p cs).map (fun pr =>
        (matchRE b (lastChar p pr.1) pr.2).map (fun qr => (pr.1 ++ qr.1, qr.2)))).flatten
  | .alt a b, p, cs => matchRE a p cs ++ matchRE b p cs
  | .wordB, p, cs =>
      if (Option.any isWordChar p) != (Option.any isWordChar cs.head?) then [([], cs)] else []

/-- Leftmost match: try each position left to right, keeping the first
(preference-ordered) match at the first matching position. -/
def firstMatchFrom (re : RE) : Option Char → List Char → Option (List Char)
  | p, [] => (matchRE re p []).head?.map Prod.fst
  | p, x :: xs =>
      match (matchRE re p (x :: xs)).head?.map Prod.fst with
      | some u => some u
      | none => firstMatchFrom re (some x) xs

/-- Embedding of JS `regex.test(s)`. -/
def reTest (re : RE) (s : String) : Bool :=
  (firstMatchFrom re none s.toList).isSome

/-- Embedding of JS `s.match(regex)` restricted to the whole-match string
(the repository only reads `match[1]`, whose group spans the whole pattern). -/
def reFirst (re : RE) (s : String) : Option String :=
  (firstMatchFrom re none s.toList).map (fun u => String.mk u)

/-- Sequence a list of regexes. -/
def rcat : List RE → RE
  | [] => .eps
  | [r] => r
  | r :: rs => .seq r (rcat rs)

/-- Alternation of a list of regexes, tried left to right. -/
def ralt : List RE → RE
  | [] => .eps
  | [r] => r
  | r :: rs => .alt r (ralt rs)

/-- Pattern `\s*`. -/
def ws0 : RE := .rep .space 0 none

/-- Pattern `\s+`. -/
def ws1 : RE := .rep .space 1 none

/-- Pattern `:?`. -/
def colonOpt : RE := .opt (.lit ":")

/-- Pattern `\d+`. -/
def digits1 : RE := .rep .digit 1 none

/-- Pattern `\d*`. -/
def digits0 : RE := .rep .digit 0 none

/-- Class `[-\/]`. -/
def sepClass : CC := .oneOf "-/"

/-- Pattern `\d{1,2}[-\/]\d{1,2}[-\/]\d{2,4}` — the date-shaped pattern. -/
def dateRE : RE :=
  rcat [.rep .digit 1 (some 2), .cls sepClass, .rep .digit 1 (some 2), .cls sepClass,
    .rep .digit 2 (some 4)]

/-! ## JS `new Date(string)` on regex-extracted dates

`INSP-001` feeds the extracted `M/D/Y` (or `M-D-Y`) string to `new Date`,
then compares elapsed milliseconds.  We embed V8's legacy parser on such
strings: split on `-` or `/`, read month/day/year, map two-digit years
(0–49 to 2000s, 50–99 to 1900s), reject month outside 1–12 or day outside
1–31 (an invalid date is `NaN`, making the later `>` comparison false,
which the embedding renders as `none`), and otherwise produce the epoch
millisecond timestamp of that civil date (day overflow rolls into the next
month, as in `MakeDay`). -/

/-- Split a character list on the date separators `-` and `/`. -/
def splitDateSeps : List Char → List (List Char)
  | [] => [[]]
  | c :: cs =>
      if c = '-' ∨ c = '/' then [] :: splitDateSeps cs
      else
        match splitDateSeps cs with
        | [] => [[c]]
        | g :: gs => (c :: g) :: gs

/-- Read a nonempty all-digit character group as a number. -/
def parseDigits : List Char → Option Nat
  | [] => none
  | cs =>
      if cs.all Char.isDigit then
        some (cs.foldl (fun a c => a * 10 + (c.toNat - 48)) 0)
      else none

/-- Days from 1970-01-01 to the civil date `y-m-d` (proleptic Gregorian,
valid for the non-negative years produced by the parser; day values beyond
the month length roll over arithmetically). -/
def daysFromCivil (y m d : Nat) : Int :=
  let yy := if m ≤ 2 then y - 1 else y
  let era := yy / 400
  let yoe := yy - era * 400
  let mp := (m + 9) % 12
  let doy := (153 * mp + 2) / 5 + d - 1
  let doe := yoe * 365 + yoe / 4 - yoe / 100 + doy
  (era : Int) * 146097 + (doe : Int) - 719468

/-- Milliseconds per day (`1000 * 60 * 60 * 24`). -/
def msPerDay : Int := 86400000

/-- Embedding of `new Date(s).getTime()` on date-separator strings:
`none` models an Invalid Date (`NaN`). -/
def jsParseDate (s : String) : Option Int :=
  match (splitDateSeps s.toList).map parseDigits with
  | [some m, some d, some y] =>
      if 1 ≤ m ∧ m ≤ 12 ∧ 1 ≤ d ∧ d ≤ 31 then
        let yy := if y < 50 then 2000 + y else if y < 100 then 1900 + y else y
        some (daysFromCivil yy m d * msPerDay)
      else none
  | _ => none

/-! ## Rule catalog (`src/rules.ts`)

Each rule is a named definition; the catalogs are the source arrays.  The
`check` field receives the clock (`now`, in epoch milliseconds — the
source reads `new Date()` globally) in addition to `(content, filename)`,
and returns `Except`: a thrown JS exception is `Except.error`.  Every
check in the catalog is total and returns `Except.ok`. -/

/-- A named, categorized compliance check (interface `ComplianceRule`). -/
structure ComplianceRule where
  id : String
  name : String
  description : String
  category : Category
  severity : Severity
  regulation : String
  check : Int → String → String → Except String (List ComplianceViolation)

/-- Pattern `/description\s*:?\s*.+/i`. -/
def descriptionRE : RE := rcat [.lit "description", ws0, colonOpt, ws0, .rep .dotAny 1 none]

/-- Pattern `/date\s*:?\s*\d{1,2}[-\/]\d{1,2}[-\/]\d{2,4}/i`. -/
def dateFieldRE : RE := rcat [.lit "date", ws0, colonOpt, ws0, dateRE]

/-- Pattern `/(aircraft|tail\s*number|registration)\s*:?\s*[A-Z]-?[A-Z0-9]+/i`. -/
def aircraftIdRE : RE :=
  rcat [ralt [.lit "aircraft", rcat [.lit "tail", ws0, .lit "number"], .lit "registration"],
    ws0, colonOpt, ws0, .cls .alpha, .opt (.lit "-"), .rep .alnum 1 none]

/-- Pattern `/(signature|signed\s*by|mechanic)\s*:?\s*.+/i`. -/
def signatureRE : RE :=
  rcat [ralt [.lit "signature", rcat [.lit "signed", ws0, .lit "by"], .lit "mechanic"],
    ws0, colonOpt, ws0, .rep .dotAny 1 none]

/-- The `requiredFields` table of MAINT-001: field key, pattern, human name. -/
def maint001Fields : List (String × RE × String) :=
  [("description", descriptionRE, "Description of work performed"),
   ("date", dateFieldRE, "Date of completion"),
   ("aircraft", aircraftIdRE, "Aircraft identification"),
   ("signature", signatureRE, "Signature and certificate number")]

/-- MAINT-001 — Maintenance Log Entry Required Fields. -/
def maint001 : ComplianceRule :=
  { id := "MAINT-001"
    name := "Maintenance Log Entry Required Fields"
    description := "Maintenance records must include required information per 14 CFR 43.9"
    category := .maintenance
    severity := .error
    regulation := "14 CFR 43.9(a)"
    check := fun _ content _ => .ok
      ((maint001Fields.filter (fun fp => !reTest fp.2.1 content)).map (fun fp =>
        { ruleId := "MAINT-001", line := none,
          message := "Missing required field: " ++ fp.2.2,
          severity := .error, regulation := "14 CFR 43.9(a)",
          suggestion := some ("Add " ++ fp.1 ++ " field to maintenance log entry") })) }

/-- Pattern `/return(ed)?\s+to\s+service|approved\s+for\s+return/i`. -/
def returnToServiceRE : RE :=
  .alt (rcat [.lit "return", .opt (.lit "ed"), ws1, .lit "to", ws1, .lit "service"])
    (rcat [.lit "approved", ws1, .lit "for", ws1, .lit "return"])

/-- MAINT-002 — Return to Service Statement. -/
def maint002 : ComplianceRule :=
  { id := "MAINT-002"
    name := "Return to Service Statement"
    description := "Maintenance must include return to service statement"
    category := .maintenance
    severity := .error
    regulation := "14 CFR 43.9(a)(4)"
    check := fun _ content _ => .ok
      (if reTest returnToServiceRE content then []
       else [{ ruleId := "MAINT-002", line := none,
               message := "Missing return to service statement",
               severity := .error, regulation := "14 CFR 43.9(a)(4)",
               suggestion := some "Include \"Approved for return to service\" or equivalent statement" }]) }

/-- Pattern `/annual\s+inspection/i`. -/
def annualRE : RE := rcat [.lit "annual", ws1, .lit "inspection"]

/-- Pattern `/(appendix\s+d|14\s+cfr\s+43\s+appendix\s+d)/i`. -/
def appendixDRE : RE :=
  ralt [rcat [.lit "appendix", ws1, .lit "d"],
    rcat [.lit "14", ws1, .lit "cfr", ws1, .lit "43", ws1, .lit "appendix", ws1, .lit "d"]]

/-- MAINT-003 — Annual Inspection Documentation. -/
def maint003 : ComplianceRule :=
  { id := "MAINT-003"
    name := "Annual Inspection Documentation"
    description := "Annual inspections must reference 14 CFR 43 Appendix D"
    category := .maintenance
    severity := .error
    regulation := "14 CFR 91.409(a)"
    check := fun _ content _ => .ok
      (if reTest annualRE content then
        if reTest appendixDRE content then []
        else [{ ruleId := "MAINT-003", line := none,
                message := "Annual inspection must reference 14 CFR 43 Appendix D",
                severity := .error, regulation := "14 CFR 91.409(a)",
                suggestion := some "Include reference to \"14 CFR 43 Appendix D\" in annual inspection entry" }]
       else []) }

/-- Pattern `/\bAD\s+\d{2,4}-\d{2}-\d{2}/i`. -/
def adRE : RE :=
  rcat [.wordB, .lit "AD", ws1, .rep .digit 2 (some 4), .lit "-", .rep .digit 2 (some 2),
    .lit "-", .rep .digit 2 (some 2)]

/-- Pattern `/(complied|compliance|complies)\s+with/i`. -/
def adComplianceRE : RE :=
  rcat [ralt [.lit "complied", .lit "compliance", .lit "complies"], ws1, .lit "with"]

/-- MAINT-004 — Airworthiness Directive Compliance. -/
def maint004 : ComplianceRule :=
  { id := "MAINT-004"
    name := "Airworthiness Directive Compliance"
    description := "AD compliance must be documented"
    category := .maintenance
    severity := .warning
    regulation := "14 CFR 39"
    check := fun _ content _ => .ok
      (if reTest adRE content then
        if reTest adComplianceRE content then []
        else [{ ruleId := "MAINT-004", line := none,
                message := "AD reference found but compliance statement missing",
                severity := .warning, regulation := "14 CFR 39",
                suggestion := some "Include statement confirming AD compliance" }]
       else []) }

/-- The `maintenanceLogRules` catalog (14 CFR Part 43). -/
def maintenanceLogRules : List ComplianceRule := [maint001, maint002, maint003, maint004]

/-- Pattern `/(aircraft|make|model)\s*:?\s*.+/i`. -/
def aircraftMakeRE : RE :=
  rcat [ralt [.lit "aircraft", .lit "make", .lit "model"], ws0, colonOpt, ws0,
    .rep .dotAny 1 none]

/-- Pattern `/(tail|registration|N\s*number)\s*:?\s*[A-Z]-?[A-Z0-9]+/i`. -/
def registrationFieldRE : RE :=
  rcat [ralt [.lit "tail", .lit "registration", rcat [.lit "N", ws0, .lit "number"]],
    ws0, colonOpt, ws0, .cls .alpha, .opt (.lit "-"), .rep .alnum 1 none]

/-- Pattern `/(total\s+time|flight\s+time|duration)\s*:?\s*\d+\.?\d*/i`. -/
def flightTimeRE : RE :=
  rcat [ralt [rcat [.lit "total", ws1, .lit "time"], rcat [.lit "flight", ws1, .lit "time"],
      .lit "duration"],
    ws0, colonOpt, ws0, digits1, .opt (.lit "."), digits0]

/-- The `requiredFields` table of PILOT-001: field key, pattern, human name. -/
def pilot001Fields : List (String × RE × String) :=
  [("date", dateFieldRE, "Date"),
   ("aircraft", aircraftMakeRE, "Aircraft make and model"),
   ("registration", registrationFieldRE, "Aircraft registration"),
   ("flight-time", flightTimeRE, "Total flight time")]

/-- PILOT-001 — Logbook Entry Required Fields. -/
def pilot001 : ComplianceRule :=
  { id := "PILOT-001"
    name := "Logbook Entry Required Fields"
    description := "Pilot logbook entries must contain required information per 14 CFR 61.51"
    category := .pilotLog
    severity := .error
    regulation := "14 CFR 61.51(b)"
    check := fun _ content _ => .ok
      ((pilot001Fields.filter (fun fp => !reTest fp.2.1 content)).map (fun fp =>
        { ruleId := "PILOT-001", line := none,
          message := "Missing required field: " ++ fp.2.2,
          severity := .error, regulation := "14 CFR 61.51(b)",
          suggestion := some ("Add " ++ fp.1 ++ " to logbook entry") })) }

/-- Pattern `/night/i`. -/
def nightRE : RE := .lit "night"

/-- Pattern `/(night\s+time|night\s+flight)\s*:?\s*\d+\.?\d*/i`. -/
def nightTimeRE : RE :=
  rcat [ralt [rcat [.lit "night", ws1, .lit "time"], rcat [.lit "night", ws1, .lit "flight"]],
    ws0, colonOpt, ws0, digits1, .opt (.lit "."), digits0]

/-- PILOT-002 — Night Flight Time Logging. -/
def pilot002 : ComplianceRule :=
  { id := "PILOT-002"
    name := "Night Flight Time Logging"
    description := "Night time must be logged if operation occurred after sunset"
    category := .pilotLog
    severity := .warning
    regulation := "14 CFR 61.51(b)(3)"
    check := fun _ content _ => .ok
      (if reTest nightRE content ∧ ¬reTest nightTimeRE content then
        [{ ruleId := "PILOT-002", line := none,
           message := "Night operation indicated but night time not logged",
           severity := .warning, regulation := "14 CFR 61.51(b)(3)",
           suggestion := some "Log night flight time separately" }]
       else []) }

/-- Pattern `/(approach|approaches|IAP)/i`. -/
def approachRE : RE := ralt [.lit "approach", .lit "approaches", .lit "IAP"]

/-- Pattern `/(ILS|VOR|RNAV|GPS|LOC|NDB)\s+(RWY)?\s*\d{1,2}[LRC]?/i`. -/
def approachDetailsRE : RE :=
  rcat [ralt [.lit "ILS", .lit "VOR", .lit "RNAV", .lit "GPS", .lit "LOC", .lit "NDB"],
    ws1, .opt (.lit "RWY"), ws0, .rep .digit 1 (some 2), .opt (.cls (.oneOf "LRC"))]

/-- PILOT-003 — Instrument Approach Logging. -/
def pilot003 : ComplianceRule :=
  { id := "PILOT-003"
    name := "Instrument Approach Logging"
    description := "Instrument approaches must include location and type"
    category := .pilotLog
    severity := .warning
    regulation := "14 CFR 61.51(g)"
    check := fun _ content _ => .ok
      (if reTest approachRE content then
        if reTest approachDetailsRE content then []
        else [{ ruleId := "PILOT-003", line := none,
                message := "Instrument approach logged without type and runway",
                severity := .warning, regulation := "14 CFR 61.51(g)",
                suggestion := some "Include approach type (ILS, RNAV, etc.) and runway" }]
       else []) }

/-- The `pilotLogRules` catalog (14 CFR Part 61). -/
def pilotLogRules : List ComplianceRule := [pilot001, pilot002, pilot003]

/-- Pattern `/airworthiness\s+certificate/i`. -/
def airworthinessCertRE : RE := rcat [.lit "airworthiness", ws1, .lit "certificate"]

/-- Pattern `/(registration|n-number)/i`. -/
def registrationDocRE : RE := ralt [.lit "registration", .lit "n-number"]

/-- Pattern `/(operating\s+limitations|pilot\s+operating\s+handbook|POH)/i`. -/
def operatingLimitsRE : RE :=
  ralt [rcat [.lit "operating", ws1, .lit "limitations"],
    rcat [.lit "pilot", ws1, .lit "operating", ws1, .lit "handbook"], .lit "POH"]

/-- Pattern `/weight\s+(and|&)\s+balance/i`. -/
def wbMentionRE : RE :=
  rcat [.lit "weight", ws1, ralt [.lit "and", .lit "&"], ws1, .lit "balance"]

/-- The `documents` table of AROW-001: human name and pattern. -/
def arow001Docs : List (String × RE) :=
  [("Airworthiness Certificate", airworthinessCertRE),
   ("Registration", registrationDocRE),
   ("Operating Limitations", operatingLimitsRE),
   ("Weight and Balance", wbMentionRE)]

/-- AROW-001 — AROW Document Checklist. -/
def arow001 : ComplianceRule :=
  { id := "AROW-001"
    name := "AROW Document Checklist"
    description := "Aircraft must have required documents (AROW)"
    category := .airworthiness
    severity := .error
    regulation := "14 CFR 91.203"
    check := fun _ content _ => .ok
      ((arow001Docs.filter (fun dp => !reTest dp.2 content)).map (fun dp =>
        { ruleId := "AROW-001", line := none,
          message := "Missing AROW document reference: " ++ dp.1,
          severity := .error, regulation := "14 CFR 91.203",
          suggestion := some ("Ensure " ++ dp.1 ++ " is documented and current") })) }

/-- The single violation INSP-001 can emit. -/
def insp001Violation : ComplianceViolation :=
  { ruleId := "INSP-001", line := none,
    message := "Annual inspection appears to be out of date",
    severity := .error, regulation := "14 CFR 91.409(a)",
    suggestion := some "Annual inspection must be completed within preceding 12 calendar months" }

/-- INSP-001 — Inspection Currency.  The source computes
`daysSinceInspection = (today - inspectionDate) / 86400000` and fires when
that exceeds 365; an Invalid Date makes the comparison `NaN > 365`, i.e.
false, which the embedding renders as the `none` branch. -/
def insp001 : ComplianceRule :=
  { id := "INSP-001"
    name := "Inspection Currency"
    description := "Annual inspection must be current"
    category := .airworthiness
    severity := .error
    regulation := "14 CFR 91.409(a)"
    check := fun now content _ => .ok
      (if reTest annualRE content then
        match reFirst dateRE content with
        | some s =>
            match jsParseDate s with
            | some t => if now - t > 365 * msPerDay then [insp001Violation] else []
            | none => []
        | none => []
       else []) }

/-- The `airworthinessRules` catalog. -/
def airworthinessRules : List ComplianceRule := [arow001, insp001]

/-- Pattern `/empty\s+weight\s*:?\s*\d+/i`. -/
def emptyWeightRE : RE :=
  rcat [.lit "empty", ws1, .lit "weight", ws0, colonOpt, ws0, digits1]

/-- Pattern `/(center\s+of\s+gravity|CG)\s*:?\s*\d+\.?\d*/i`. -/
def cgRE : RE :=
  rcat [ralt [rcat [.lit "center", ws1, .lit "of", ws1, .lit "gravity"], .lit "CG"],
    ws0, colonOpt, ws0, digits1, .opt (.lit "."), digits0]

/-- Pattern `/useful\s+load\s*:?\s*\d+/i`. -/
def usefulLoadRE : RE :=
  rcat [.lit "useful", ws1, .lit "load", ws0, colonOpt, ws0, digits1]

/-- The `requiredData` table of WB-001: human name and pattern. -/
def wb001Data : List (String × RE) :=
  [("Empty Weight", emptyWeightRE), ("CG Location", cgRE), ("Useful Load", usefulLoadRE)]

/-- The WB-001 violation for one missing data item. -/
def wb001Violation (itemName : String) : ComplianceViolation :=
  { ruleId := "WB-001", line := none,
    message := "Missing weight and balance data: " ++ itemName,
    severity := .error, regulation := "14 CFR 91.9",
    suggestion := some ("Include " ++ itemName ++ " in weight and balance documentation") }

/-- WB-001 — Weight and Balance Data. -/
def wb001 : ComplianceRule :=
  { id := "WB-001"
    name := "Weight and Balance Data"
    description := "Current weight and balance data must be available"
    category := .weightBalance
    severity := .error
    regulation := "14 CFR 91.9"
    check := fun _ content _ => .ok
      (if reTest wbMentionRE content then
        (wb001Data.filter (fun dp => !reTest dp.2 content)).map (fun dp => wb001Violation dp.1)
       else []) }

/-- The `weightBalanceRules` catalog. -/
def weightBalanceRules : List ComplianceRule := [wb001]

/-- The concatenated `allRules` export. -/
def allRules : List ComplianceRule :=
  maintenanceLogRules ++ pilotLogRules ++ airworthinessRules ++ weightBalanceRules

/-! ## The engine (`ComplianceChecker`)

File discovery (`glob`) and file reading (`fs.readFileSync`) are external
collaborators, passed in as functions; the clock is the explicit `now`. -/

/-- Constructor options of `ComplianceChecker` (interface `CheckOptions`). -/
structure CheckOptions where
  checkMaintenanceLogs : Bool
  checkPilotLogs : Bool
  checkAirworthiness : Bool
  checkWeightBalance : Bool
  deriving DecidableEq, Repr

/-- Per-file outcome (interface `FileComplianceResult`). -/
structure FileComplianceResult where
  filename : String
  violations : List ComplianceViolation
  status : Status
  deriving DecidableEq, Repr

/-- The `violationsBySeverity` record of a report. -/
structure SeverityCounts where
  error : Nat
  warning : Nat
  info : Nat
  deriving DecidableEq, Repr

/-- Aggregate run outcome (interface `ComplianceReport`). -/
structure ComplianceReport where
  totalFiles : Nat
  filesChecked : Nat
  totalViolations : Nat
  violationsBySeverity : SeverityCounts
  fileResults : List FileComplianceResult
  summary : String
  deriving DecidableEq, Repr

/-- Embeds `ComplianceChecker.loadRules`: push each enabled category's catalog, in
the fixed maintenance / pilot-log / airworthiness / weight-balance order. -/
def loadRules (options : CheckOptions) : List ComplianceRule :=
  (if options.checkMaintenanceLogs then maintenanceLogRules else []) ++
  (if options.checkPilotLogs then pilotLogRules else []) ++
  (if options.checkAirworthiness then airworthinessRules else []) ++
  (if options.checkWeightBalance then weightBalanceRules else [])

/-- The `console.error` line emitted when a rule check throws. -/
def ruleErrorLog (ruleId filename : String) : String :=
  "Error checking rule " ++ ruleId ++ " on " ++ filename ++ ":"

/-- The rule loop of `ComplianceChecker.checkFile`: run each rule's check,
concatenating violations in rule order; a thrown check contributes nothing
and appends one error-log line (the try/catch around `rule.check`). -/
def runRules (rules : List ComplianceRule) (now : Int) (content filename : String) :
    List ComplianceViolation × List String :=
  match rules with
  | [] => ([], [])
  | r :: rs =>
      let rest := runRules rs now content filename
      match r.check now content filename with
      | .ok vs => (vs ++ rest.1, rest.2)
      | .error _ => (rest.1, ruleErrorLog r.id filename :: rest.2)

/-- Embeds `ComplianceChecker.determineStatus`. -/
def determineStatus (violations : List ComplianceViolation) : Status :=
  let hasErrors := violations.any (fun v => v.severity == Severity.error)
  let hasWarnings := violations.any (fun v => v.severity == Severity.warning)
  if hasErrors then .FAIL else if hasWarnings then .WARNING else .PASS

/-- Embeds `ComplianceChecker.checkFile` (content already read): the per-file
result plus the error-log lines produced by throwing rule checks. -/
def checkFile (rules : List ComplianceRule) (now : Int) (filename content : String) :
    FileComplianceResult × List String :=
  let run := runRules rules now content filename
  ({ filename := filename, violations := run.1, status := determineStatus run.1 }, run.2)

/-- First-occurrence deduplication, with an accumulator of already-seen
names — the order-preserving behavior of `[...new Set(allFiles)]`. -/
def dedupAux (seen : List String) : List String → List String
  | [] => []
  | x :: xs => if seen.contains x then dedupAux seen xs else x :: dedupAux (x :: seen) xs

/-- Embeds `[...new Set(l)]`: keep the first occurrence of each element. -/
def dedupKeepFirst (l : List String) : List String := dedupAux [] l

/-- Embeds `ComplianceChecker.findFiles`: concatenate each pattern's glob matches,
then deduplicate via a `Set`. -/
def findFiles (globResolve : String → List String) (patterns : List String) : List String :=
  dedupKeepFirst (patterns.flatMap globResolve)

/-- One step of the `violationsBySeverity[violation.severity]++` update. -/
def bumpSeverity (c : SeverityCounts) : Severity → SeverityCounts
  | .error => { c with error := c.error + 1 }
  | .warning => { c with warning := c.warning + 1 }
  | .info => { c with info := c.info + 1 }

/-- Embeds `ComplianceChecker.generateReport`. -/
def generateReport (fileResults : List FileComplianceResult) : ComplianceReport :=
  let totalViolations := fileResults.foldl (fun sum r => sum + r.violations.length) 0
  let violationsBySeverity := fileResults.foldl
    (fun acc r => r.violations.foldl (fun a v => bumpSeverity a v.severity) acc)
    { error := 0, warning := 0, info := 0 }
  let failedFiles := (fileResults.filter (fun r => r.status == Status.FAIL)).length
  let warningFiles := (fileResults.filter (fun r => r.status == Status.WARNING)).length
  let passedFiles := (fileResults.filter (fun r => r.status == Status.PASS)).length
  let summary :=
    "Aviation Compliance Check Complete\n\n" ++
    "Files Checked: " ++ toString fileResults.length ++ "\n" ++
    "✅ Passed: " ++ toString passedFiles ++ "\n" ++
    "⚠️  Warnings: " ++ toString warningFiles ++ "\n" ++
    "❌ Failed: " ++ toString failedFiles ++ "\n\n" ++
    "Total Violations: " ++ toString totalViolations ++ "\n" ++
    "  - Errors: " ++ toString violationsBySeverity.error ++ "\n" ++
    "  - Warnings: " ++ toString violationsBySeverity.warning ++ "\n" ++
    "  - Info: " ++ toString violationsBySeverity.info ++ "\n"
  { totalFiles := fileResults.length
    filesChecked := fileResults.length
    totalViolations := totalViolations
    violationsBySeverity := violationsBySeverity
    fileResults := fileResults
    summary := summary }

/-- Embeds `ComplianceChecker.checkFiles`: resolve the patterns, check each file
once, aggregate.  (The error log of each file goes to the console and is
not part of the report; we keep only the results, as the source does.) -/
def checkFiles (options : CheckOptions) (globResolve : String → List String)
    (readContent : String → String) (now : Int) (filePatterns : List String) :
    ComplianceReport :=
  let files := findFiles globResolve filePatterns
  let fileResults := files.map (fun f => (checkFile (loadRules options) now f (readContent f)).1)
  generateReport fileResults

/-- The severity icon used for violation lines of failed files. -/
def severityIcon : Severity → String
  | .error => "❌"
  | .warning => "⚠️"
  | .info => "ℹ️"

/-- Embeds `ComplianceChecker.generateMarkdownReport`. -/
def generateMarkdownReport (report : ComplianceReport) : String :=
  let header :=
    "# ✈️ Aviation Compliance Report\n\n" ++
    "## Summary\n\n" ++
    "- **Files Checked:** " ++ toString report.filesChecked ++ "\n" ++
    "- **Total Violations:** " ++ toString report.totalViolations ++ "\n" ++
    "- **Errors:** " ++ toString report.violationsBySeverity.error ++ " ❌\n" ++
    "- **Warnings:** " ++ toString report.violationsBySeverity.warning ++ " ⚠️\n" ++
    "- **Info:** " ++ toString report.violationsBySeverity.info ++ " ℹ️\n\n"
  let failedFiles := report.fileResults.filter (fun r => r.status == Status.FAIL)
  let warningFiles := report.fileResults.filter (fun r => r.status == Status.WARNING)
  let passedFiles := report.fileResults.filter (fun r => r.status == Status.PASS)
  let failedSection :=
    if failedFiles.length > 0 then
      "## ❌ Failed Files\n\n" ++
      String.join (failedFiles.map (fun file =>
        "### `" ++ file.filename ++ "`\n\n" ++
        String.join (file.violations.map (fun v =>
          severityIcon v.severity ++ " **" ++ v.ruleId ++ "**: " ++ v.message ++ "\n" ++
          "   - *Regulation:* " ++ v.regulation ++ "\n" ++
          (match v.suggestion with
           | some s => "   - *Suggestion:* " ++ s ++ "\n"
           | none => "") ++ "\n"))))
    else ""
  let warningSection :=
    if warningFiles.length > 0 then
      "## ⚠️ Files with Warnings\n\n" ++
      String.join (warningFiles.map (fun file =>
        "### `" ++ file.filename ++ "`\n\n" ++
        String.join (file.violations.map (fun v =>
          "⚠️ **" ++ v.ruleId ++ "**: " ++ v.message ++ "\n" ++
          "   - *Regulation:* " ++ v.regulation ++ "\n" ++
          (match v.suggestion with
           | some s => "   - *Suggestion:* " ++ s ++ "\n"
           | none => "") ++ "\n"))))
    else ""
  let passedSection :=
    if passedFiles.length > 0 then
      "## ✅ Passed Files\n\n" ++
      String.join (passedFiles.map (fun file => "- `" ++ file.filename ++ "`\n")) ++ "\n"
    else ""
  header ++ failedSection ++ warningSection ++ passedSection ++
    "---\n\n*Generated by [Aviation Compliance Checker](https://github.com/marketplace/actions/aviation-compliance-checker)*\n"

/-! ## Derived notions used by the statements -/

/-- Violations of one rule on one document when its check returns normally;
a throwing check contributes the empty list. -/
def okViolations (r : ComplianceRule) (now : Int) (content filename : String) :
    List ComplianceViolation :=
  match r.check now content filename with
  | .ok vs => vs
  | .error _ => []

/-- Did the rule's check throw on this document? -/
def checkRaised (r : ComplianceRule) (now : Int) (content filename : String) : Bool :=
  match r.check now content filename with
  | .ok _ => false
  | .error _ => true

/-- First-occurrence deduplication of rules keyed by rule id, with an
accumulator of already-seen ids. -/
def dedupByIdAux (seen : List String) : List ComplianceRule → List ComplianceRule
  | [] => []
  | r :: rs =>
      if seen.contains r.id then dedupByIdAux seen rs
      else r :: dedupByIdAux (r.id :: seen) rs

/-- Deduplication of a rule list by rule id, keeping first occurrences. -/
def dedupById (rules : List ComplianceRule) : List ComplianceRule := dedupByIdAux [] rules

/-- Is the given category enabled by the options? -/
def categoryEnabled (options : CheckOptions) : Category → Bool
  | .maintenance => options.checkMaintenanceLogs
  | .pilotLog => options.checkPilotLogs
  | .airworthiness => options.checkAirworthiness
  | .weightBalance => options.checkWeightBalance

/-- Follows the spec's words: the deduplicated union of exactly the catalogs
of the enabled categories, in catalog order (maintenance, pilot-log,
airworthiness, weight-balance), each catalog's internal order preserved. -/
def specConfiguredRules (options : CheckOptions) : List ComplianceRule :=
  dedupById
    ((if options.checkMaintenanceLogs then maintenanceLogRules else []) ++
     (if options.checkPilotLogs then pilotLogRules else []) ++
     (if options.checkAirworthiness then airworthinessRules else []) ++
     (if options.checkWeightBalance then weightBalanceRules else []))

/-- Sum of the three per-severity counters. -/
def SeverityCounts.total (c : SeverityCounts) : Nat := c.error + c.warning + c.info

/-- Follows the spec's words: the summary header of the markdown rendering,
displaying the report's stored counts verbatim. -/
def specMdSummary (report : ComplianceReport) : String :=
  "# ✈️ Aviation Compliance Report\n\n" ++
  "## Summary\n\n" ++
  "- **Files Checked:** " ++ toString report.filesChecked ++ "\n" ++
  "- **Total Violations:** " ++ toString report.totalViolations ++ "\n" ++
  "- **Errors:** " ++ toString report.violationsBySeverity.error ++ " ❌\n" ++
  "- **Warnings:** " ++ toString report.violationsBySeverity.warning ++ " ⚠️\n" ++
  "- **Info:** " ++ toString report.violationsBySeverity.info ++ " ℹ️\n\n"

/-- Follows the spec's words: one violation line of the failed-files group,
carrying its severity icon, the regulation citation and the suggestion when
present. -/
def specMdFailLine (v : ComplianceViolation) : String :=
  severityIcon v.severity ++ " **" ++ v.ruleId ++ "**: " ++ v.message ++ "\n" ++
  "   - *Regulation:* " ++ v.regulation ++ "\n" ++
  (match v.suggestion with
   | some s => "   - *Suggestion:* " ++ s ++ "\n"
   | none => "") ++ "\n"

/-- Follows the spec's words: one violation line of the warnings group (the
warning icon), with the regulation citation and the suggestion when present. -/
def specMdWarnLine (v : ComplianceViolation) : String :=
  "⚠️ **" ++ v.ruleId ++ "**: " ++ v.message ++ "\n" ++
  "   - *Regulation:* " ++ v.regulation ++ "\n" ++
  (match v.suggestion with
   | some s => "   - *Suggestion:* " ++ s ++ "\n"
   | none => "") ++ "\n"

/-- Follows the spec's words: the failed-files group, in report order. -/
def specMdFailedFiles (files : List FileComplianceResult) : String :=
  if files.length > 0 then
    "## ❌ Failed Files\n\n" ++
    String.join (files.map (fun file =>
      "### `" ++ file.filename ++ "`\n\n" ++ String.join (file.violations.map specMdFailLine)))
  else ""

/-- Follows the spec's words: the warnings group, in report order. -/
def specMdWarningFiles (files : List FileComplianceResult) : String :=
  if files.length > 0 then
    "## ⚠️ Files with Warnings\n\n" ++
    String.join (files.map (fun file =>
      "### `" ++ file.filename ++ "`\n\n" ++ String.join (file.violations.map specMdWarnLine)))
  else ""

/-- Follows the spec's words: the passed-files group, filenames only. -/
def specMdPassedFiles (files : List FileComplianceResult) : String :=
  if files.length > 0 then
    "## ✅ Passed Files\n\n" ++
    String.join (files.map (fun file => "- `" ++ file.filename ++ "`\n")) ++ "\n"
  else ""

/-- The fixed trailer of the markdown rendering. -/
def specMdFooter : String :=
  "---\n\n*Generated by [Aviation Compliance Checker](https://github.com/marketplace/actions/aviation-compliance-checker)*\n"

/-- An all-info violation used to instantiate status statements. -/
def infoOnlyViolation : ComplianceViolation :=
  { ruleId := "X", line := none, message := "m", severity := .info, regulation := "r",
    suggestion := none }

/-- A document whose INSP-001 outcome depends on the clock. -/
def clockSensitiveDoc : String := "annual inspection 01/15/2020"

/-- Options enabling only the airworthiness category. -/
def airOnlyOptions : CheckOptions :=
  { checkMaintenanceLogs := false, checkPilotLogs := false, checkAirworthiness := true,
    checkWeightBalance := false }

/-- A one-file glob collaborator. -/
def oneFileGlob : String → List String := fun _ => ["log.md"]

/-- A reader serving the clock-sensitive document. -/
def clockSensitiveRead : String → String := fun _ => clockSensitiveDoc

/-! ## Supporting lemmas -/

theorem any_severity_iff (vs : List ComplianceViolation) (s : Severity) :
    vs.any (fun v => v.severity == s) = true ↔ ∃ v ∈ vs, v.severity = s := by
  simp [List.any_eq_true]

theorem determineStatus_eq (vs : List ComplianceViolation) :
    determineStatus vs =
      if ∃ v ∈ vs, v.severity = Severity.error then Status.FAIL
      else if ∃ v ∈ vs, v.severity = Severity.warning then Status.WARNING
      else Status.PASS := by
  unfold determineStatus
  by_cases he : ∃ v ∈ vs, v.severity = Severity.error <;>
    by_cases hw : ∃ v ∈ vs, v.severity = Severity.warning <;>
      simp [he, hw, List.any_eq_true]

theorem foldl_add_violations (l : List FileComplianceResult) (n : Nat) :
    l.foldl (fun sum r => sum + r.violations.length) n =
      n + (l.map (fun r => r.violations.length)).sum := by
  induction l generalizing n with
  | nil => simp
  | cons x xs ih => simp [ih, Nat.add_assoc]

theorem bumpSeverity_total (c : SeverityCounts) (s : Severity) :
    (bumpSeverity c s).total = c.total + 1 := by
  cases s <;> simp [bumpSeverity, SeverityCounts.total] <;> omega

theorem foldl_bump_total (vs : List ComplianceViolation) (c : SeverityCounts) :
    (vs.foldl (fun a v => bumpSeverity a v.severity) c).total = c.total + vs.length := by
  induction vs generalizing c with
  | nil => simp
  | cons v vs ih => rw [List.foldl_cons, ih, bumpSeverity_total, List.length_cons]; omega

theorem foldl_files_bump_total (rs : List FileComplianceResult) (c : SeverityCounts) :
    (rs.foldl (fun acc r => r.violations.foldl (fun a v => bumpSeverity a v.severity) acc)
      c).total = c.total + (rs.map (fun r => r.violations.length)).sum := by
  induction rs generalizing c with
  | nil => simp
  | cons r rs ih => rw [List.foldl_cons, ih, foldl_bump_total]; simp; omega

/-! ## Claims -/

/-- Claim C1: for every document, the derived status is FAIL iff some
violation has severity error; WARNING iff no error violation exists and
some warning one does; PASS otherwise — in particular all-info violation
lists yield PASS. -/
theorem determineStatus_characterization (vs : List ComplianceViolation) :
    (determineStatus vs = Status.FAIL ↔ ∃ v ∈ vs, v.severity = Severity.error) ∧
    (determineStatus vs = Status.WARNING ↔
      ¬(∃ v ∈ vs, v.severity = Severity.error) ∧ ∃ v ∈ vs, v.severity = Severity.warning) ∧
    (determineStatus vs = Status.PASS ↔
      ¬(∃ v ∈ vs, v.severity = Severity.error) ∧
        ¬∃ v ∈ vs, v.severity = Severity.warning) ∧
    ((∀ v ∈ vs, v.severity = Severity.info) → determineStatus vs = Status.PASS) := by
  rw [determineStatus_eq]
  by_cases he : ∃ v ∈ vs, v.severity = Severity.error
  · rw [if_pos he]
    obtain ⟨v, hv, hsev⟩ := he
    refine ⟨iff_of_true rfl ⟨v, hv, hsev⟩,
      iff_of_false (by decide) (fun hh => hh.1 ⟨v, hv, hsev⟩),
      iff_of_false (by decide) (fun hh => hh.1 ⟨v, hv, hsev⟩), ?_⟩
    intro hall
    rw [hall v hv] at hsev
    exact absurd hsev (by decide)
  · rw [if_neg he]
    by_cases hw : ∃ v ∈ vs, v.severity = Severity.warning
    · rw [if_pos hw]
      obtain ⟨v, hv, hsev⟩ := hw
      refine ⟨iff_of_false (by decide) (fun hh => he hh),
        iff_of_true rfl ⟨he, v, hv, hsev⟩,
        iff_of_false (by decide) (fun hh => hh.2 ⟨v, hv, hsev⟩), ?_⟩
      intro hall
      rw [hall v hv] at hsev
      exact absurd hsev (by decide)
    · rw [if_neg hw]
      exact ⟨iff_of_false (by decide) (fun hh => he hh),
        iff_of_false (by decide) (fun hh => hw hh.2),
        iff_of_true rfl ⟨he, hw⟩, fun _ => rfl⟩

/-- Witness for C1 at a concrete all-info violation list. -/
theorem determineStatus_characterization_witness :
    determineStatus [infoOnlyViolation] = Status.PASS :=
  (determineStatus_characterization [infoOnlyViolation]).2.2.2 (by decide)

/-- Claim C2: in every generated report, the sum over files of violation
counts equals `totalViolations`, and the three per-severity counts also sum
to `totalViolations`. -/
theorem generateReport_totals (fileResults : List FileComplianceResult) :
    (fileResults.map (fun r => r.violations.length)).sum =
      (generateReport fileResults).totalViolations ∧
    (generateReport fileResults).violationsBySeverity.error +
      (generateReport fileResults).violationsBySeverity.warning +
      (generateReport fileResults).violationsBySeverity.info =
        (generateReport fileResults).totalViolations := by
  constructor
  · show _ = fileResults.foldl (fun sum r => sum + r.violations.length) 0
    rw [foldl_add_violations, Nat.zero_add]
  · show (fileResults.foldl
        (fun acc r => r.violations.foldl (fun a v => bumpSeverity a v.severity) acc)
        ({ error := 0, warning := 0, info := 0 } : SeverityCounts)).error +
      (fileResults.foldl
        (fun acc r => r.violations.foldl (fun a v => bumpSeverity a v.severity) acc)
        ({ error := 0, warning := 0, info := 0 } : SeverityCounts)).warning +
      (fileResults.foldl
        (fun acc r => r.violations.foldl (fun a v => bumpSeverity a v.severity) acc)
        ({ error := 0, warning := 0, info := 0 } : SeverityCounts)).info =
      fileResults.foldl (fun sum r => sum + r.violations.length) 0
    have h := foldl_files_bump_total fileResults { error := 0, warning := 0, info := 0 }
    have h2 := foldl_add_violations fileResults 0
    simp only [SeverityCounts.total] at h
    omega

/-- Claim C10: every generated report has `totalFiles = filesChecked`, both
equal to the length of the per-file result list, despite the two report
fields being distinct. -/
theorem generateReport_file_counts (fileResults : List FileComplianceResult) :
    (generateReport fileResults).totalFiles = (generateReport fileResults).fileResults.length ∧
    (generateReport fileResults).filesChecked =
      (generateReport fileResults).fileResults.length ∧
    (generateReport fileResults).totalFiles = (generateReport fileResults).filesChecked :=
  ⟨rfl, rfl, rfl⟩

/-- Claim C4: a rule check that throws does not abort the document: the
file's violations are exactly the concatenated violations of the
non-throwing rules in rule-configuration order, and each throwing rule
produces one error-log line (and nothing else). -/
theorem checkFile_error_recovery (rules : List ComplianceRule) (now : Int)
    (filename content : String) :
    (checkFile rules now filename content).1.violations =
      ((rules.filter (fun r => !checkRaised r now content filename)).map
        (fun r => okViolations r now content filename)).flatten ∧
    (checkFile rules now filename content).2 =
      (rules.filter (fun r => checkRaised r now content filename)).map
        (fun r => ruleErrorLog r.id filename) := by
  show (runRules rules now content filename).1 = _ ∧ (runRules rules now content filename).2 = _
  induction rules with
  | nil => exact ⟨rfl, rfl⟩
  | cons r rs ih =>
    cases hc : r.check now content filename with
    | ok vs =>
        refine ⟨?_, ?_⟩ <;>
          simp [runRules, hc, checkRaised, okViolations, List.filter_cons, ih.1, ih.2]
    | error e =>
        refine ⟨?_, ?_⟩ <;>
          simp [runRules, hc, checkRaised, List.filter_cons, ih.1, ih.2]

theorem mem_dedupAux (l : List String) : ∀ (seen : List String) (x : String),
    x ∈ dedupAux seen l ↔ x ∈ l ∧ x ∉ seen := by
  induction l with
  | nil => intro seen x; simp [dedupAux]
  | cons y ys ih =>
    intro seen x
    by_cases hy : y ∈ seen
    · rw [dedupAux, if_pos (by simpa using hy), ih]
      constructor
      · rintro ⟨hx, hs⟩; exact ⟨List.mem_cons_of_mem _ hx, hs⟩
      · rintro ⟨hx, hs⟩
        rcases List.mem_cons.mp hx with rfl | hx
        · exact absurd hy hs
        · exact ⟨hx, hs⟩
    · rw [dedupAux, if_neg (by simpa using hy)]
      constructor
      · intro hx
        rcases List.mem_cons.mp hx with rfl | hx
        · exact ⟨List.mem_cons_self _ _, hy⟩
        · obtain ⟨h1, h2⟩ := (ih _ _).mp hx
          rw [List.mem_cons] at h2
          push_neg at h2
          exact ⟨List.mem_cons_of_mem _ h1, h2.2⟩
      · rintro ⟨hx, hs⟩
        rcases List.mem_cons.mp hx with rfl | hx
        · exact List.mem_cons_self _ _
        · by_cases hxy : x = y
          · subst hxy; exact List.mem_cons_self _ _
          · refine List.mem_cons_of_mem _ ((ih _ _).mpr ⟨hx, ?_⟩)
            rw [List.mem_cons]
            push_neg
            exact ⟨hxy, hs⟩

theorem nodup_dedupAux (l : List String) : ∀ seen, (dedupAux seen l).Nodup := by
  induction l with
  | nil => intro seen; simp [dedupAux]
  | cons y ys ih =>
    intro seen
    by_cases hy : y ∈ seen
    · rw [dedupAux, if_pos (by simpa using hy)]
      exact ih seen
    · rw [dedupAux, if_neg (by simpa using hy)]
      refine List.Nodup.cons ?_ (ih _)
      intro hmem
      obtain ⟨-, hns⟩ := (mem_dedupAux ys _ y).mp hmem
      exact hns (List.mem_cons_self _ _)

/-- Claim C5: each resolved filename survives pattern-union deduplication
exactly once — the file list is duplicate-free, contains a name iff some
input pattern resolves to it, and a name matched by at least one pattern
yields exactly one `FileComplianceResult` in the run's report. -/
theorem findFiles_unique (options : CheckOptions) (globResolve : String → List String)
    (readContent : String → String) (now : Int) (patterns : List String) (f : String) :
    (findFiles globResolve patterns).Nodup ∧
    (f ∈ findFiles globResolve patterns ↔ ∃ p ∈ patterns, f ∈ globResolve p) ∧
    ((∃ p ∈ patterns, f ∈ globResolve p) →
      ((checkFiles options globResolve readContent now patterns).fileResults.countP
        (fun r => r.filename == f)) = 1) := by
  have hnd : (findFiles globResolve patterns).Nodup := nodup_dedupAux _ []
  have hmem : f ∈ findFiles globResolve patterns ↔ ∃ p ∈ patterns, f ∈ globResolve p := by
    unfold findFiles dedupKeepFirst
    rw [mem_dedupAux]
    simp [List.mem_flatMap]
  refine ⟨hnd, hmem, fun hex => ?_⟩
  have hf : f ∈ findFiles globResolve patterns := hmem.mpr hex
  show ((findFiles globResolve patterns).map
      (fun file => (checkFile (loadRules options) now file (readContent file)).1)).countP
    (fun r => r.filename == f) = 1
  rw [List.countP_map]
  exact List.count_eq_one_of_mem hnd hf

/-- Witness for C5: the same filename matched by both patterns is checked
once. -/
theorem findFiles_unique_witness :
    ((checkFiles (⟨false, false, false, false⟩ : CheckOptions)
      (fun p => if p == "a" then ["x"] else ["x", "y"]) (fun _ => "") 0
      ["a", "b"]).fileResults.countP (fun r => r.filename == "x")) = 1 :=
  (findFiles_unique _ _ _ _ _ _).2.2 (by decide)

theorem dedupByIdAux_eq_self (l : List ComplianceRule) : ∀ seen : List String,
    (∀ r ∈ l, r.id ∉ seen) → (l.map ComplianceRule.id).Nodup →
      dedupByIdAux seen l = l := by
  induction l with
  | nil => intro seen _ _; rfl
  | cons r rs ih =>
    intro seen hseen hnd
    rw [dedupByIdAux, if_neg (by simpa using hseen r (List.mem_cons_self _ _))]
    rw [List.map_cons, List.nodup_cons] at hnd
    congr 1
    refine ih _ ?_ hnd.2
    intro x hx
    rw [List.mem_cons]
    push_neg
    refine ⟨?_, hseen x (List.mem_cons_of_mem _ hx)⟩
    intro hid
    exact hnd.1 (hid ▸ List.mem_map_of_mem ComplianceRule.id hx)

theorem if_list_sublist {α : Type} (b : Bool) (l : List α) :
    (if b then l else []).Sublist l := by
  cases b <;> simp

theorem loadRules_sublist_allRules (options : CheckOptions) :
    (loadRules options).Sublist allRules := by
  unfold loadRules allRules
  exact List.Sublist.append
    (List.Sublist.append
      (List.Sublist.append (if_list_sublist _ _) (if_list_sublist _ _))
      (if_list_sublist _ _))
    (if_list_sublist _ _)

theorem allRules_ids_nodup : (allRules.map ComplianceRule.id).Nodup := by
  decide

theorem mem_maintenance_category :
    ∀ r ∈ maintenanceLogRules, r.category = Category.maintenance := by
  intro r hr
  simp only [maintenanceLogRules, List.mem_cons, List.not_mem_nil, or_false] at hr
  rcases hr with rfl | rfl | rfl | rfl <;> rfl

theorem mem_pilot_category : ∀ r ∈ pilotLogRules, r.category = Category.pilotLog := by
  intro r hr
  simp only [pilotLogRules, List.mem_cons, List.not_mem_nil, or_false] at hr
  rcases hr with rfl | rfl | rfl <;> rfl

theorem mem_airworthiness_category :
    ∀ r ∈ airworthinessRules, r.category = Category.airworthiness := by
  intro r hr
  simp only [airworthinessRules, List.mem_cons, List.not_mem_nil, or_false] at hr
  rcases hr with rfl | rfl <;> rfl

theorem mem_weightBalance_category :
    ∀ r ∈ weightBalanceRules, r.category = Category.weightBalance := by
  intro r hr
  simp only [weightBalanceRules, List.mem_cons, List.not_mem_nil, or_false] at hr
  rcases hr with rfl
  rfl

/-- Claim C3: for every combination of category flags, the configured rule
list is exactly the deduplicated union of the enabled catalogs in catalog
order (deduplication is by rule id and is a no-op, the catalogs being
disjoint), and a disabled category contributes no rules. -/
theorem loadRules_spec (options : CheckOptions) :
    loadRules options = specConfiguredRules options ∧
    ∀ r ∈ loadRules options, categoryEnabled options r.category = true := by
  constructor
  · unfold specConfiguredRules dedupById
    rw [dedupByIdAux_eq_self]
    · rfl
    · intro r _
      exact List.not_mem_nil _
    · exact (List.Sublist.map ComplianceRule.id (loadRules_sublist_allRules options)).nodup
        allRules_ids_nodup
  · intro r hr
    simp only [loadRules, List.mem_append] at hr
    rcases hr with ((h1 | h2) | h3) | h4
    · split at h1
      · rw [mem_maintenance_category r h1, categoryEnabled]
        assumption
      · exact absurd h1 (List.not_mem_nil _)
    · split at h2
      · rw [mem_pilot_category r h2, categoryEnabled]
        assumption
      · exact absurd h2 (List.not_mem_nil _)
    · split at h3
      · rw [mem_airworthiness_category r h3, categoryEnabled]
        assumption
      · exact absurd h3 (List.not_mem_nil _)
    · split at h4
      · rw [mem_weightBalance_category r h4, categoryEnabled]
        assumption
      · exact absurd h4 (List.not_mem_nil _)

/-- Claim C6: on a document mentioning an annual inspection, INSP-001 is a
function of the first date-shaped substring only — no violation without
one, a silent skip when the extracted string does not parse as a date, and
exactly one violation exactly when the parsed date is more than 365 days
before `now`. -/
theorem insp001_recency (now : Int) (content filename : String)
    (hAnnual : reTest annualRE content = true) :
    (reFirst dateRE content = none → insp001.check now content filename = .ok []) ∧
    (∀ s, reFirst dateRE content = some s → jsParseDate s = none →
      insp001.check now content filename = .ok []) ∧
    (∀ s t, reFirst dateRE content = some s → jsParseDate s = some t →
      insp001.check now content filename =
        .ok (if now - t > 365 * msPerDay then [insp001Violation] else [])) := by
  refine ⟨?_, ?_, ?_⟩
  · intro h
    simp [insp001, hAnnual, h]
  · intro s h1 h2
    simp [insp001, hAnnual, h1, h2]
  · intro s t h1 h2
    simp [insp001, hAnnual, h1, h2]

/-- Witness for C6: a stale inspection date fires, a fresh one does not, an
unparsable extracted date and a dateless document are silently skipped. -/
theorem insp001_recency_witness :
    insp001.check 1700000000000 clockSensitiveDoc "log.md" = .ok [insp001Violation] ∧
    insp001.check 1579046400000 clockSensitiveDoc "log.md" = .ok [] ∧
    insp001.check 0 "annual inspection 13/13/99" "log.md" = .ok [] ∧
    insp001.check 0 "annual inspection due soon" "log.md" = .ok [] := by
  refine ⟨?_, ?_, ?_, ?_⟩
  · have h := (insp001_recency 1700000000000 clockSensitiveDoc "log.md" (by decide)).2.2
      "01/15/2020" 1579046400000 (by decide) (by decide)
    rw [h]
    norm_num [msPerDay]
  · have h := (insp001_recency 1579046400000 clockSensitiveDoc "log.md" (by decide)).2.2
      "01/15/2020" 1579046400000 (by decide) (by decide)
    rw [h]
    norm_num [msPerDay]
  · exact (insp001_recency 0 "annual inspection 13/13/99" "log.md" (by decide)).2.1
      "13/13/99" (by decide) (by decide)
  · exact (insp001_recency 0 "annual inspection due soon" "log.md" (by decide)).1 (by decide)

/-- Claim C7: WB-001 emits nothing when the weight-and-balance gate pattern
does not match; when it matches, it emits one violation per missing inner
item; in particular with empty weight and CG present but useful load
absent it emits exactly the Useful Load violation. -/
theorem wb001_gate (now : Int) (content filename : String) :
    (reTest wbMentionRE content = false → wb001.check now content filename = .ok []) ∧
    (reTest wbMentionRE content = true → wb001.check now content filename =
      .ok ((wb001Data.filter (fun dp => !reTest dp.2 content)).map
        (fun dp => wb001Violation dp.1))) ∧
    (reTest wbMentionRE content = true → reTest emptyWeightRE content = true →
      reTest cgRE content = true → reTest usefulLoadRE content = false →
        wb001.check now content filename = .ok [wb001Violation "Useful Load"]) := by
  refine ⟨?_, ?_, ?_⟩
  · intro h
    simp [wb001, h]
  · intro h
    simp [wb001, h]
  · intro h h1 h2 h3
    simp [wb001, wb001Data, h, h1, h2, h3]

/-- Witness for C7: a document with the gate, empty weight and CG but no
useful load yields exactly the Useful Load violation, and a gate-free
document yields none. -/
theorem wb001_gate_witness :
    wb001.check 0 "weight and balance Empty Weight: 1650 CG: 39.5" "wb.md" =
      .ok [wb001Violation "Useful Load"] ∧
    wb001.check 0 "nothing relevant" "wb.md" = .ok [] := by
  constructor
  · exact (wb001_gate 0 "weight and balance Empty Weight: 1650 CG: 39.5" "wb.md").2.2
      (by decide) (by decide) (by decide) (by decide)
  · exact (wb001_gate 0 "nothing relevant" "wb.md").1 (by decide)

/-- Witness for C3 with every category enabled, instantiated at INSP-001. -/
theorem loadRules_spec_witness :
    loadRules (⟨true, true, true, true⟩ : CheckOptions) =
      specConfiguredRules (⟨true, true, true, true⟩ : CheckOptions) ∧
    categoryEnabled (⟨true, true, true, true⟩ : CheckOptions) insp001.category = true :=
  ⟨(loadRules_spec _).1,
   (loadRules_spec _).2 insp001
     (by simp [loadRules, airworthinessRules])⟩

/-- Claim C9: the markdown rendering is a pure projection of the report —
it is exactly the summary header built from the report's stored counts,
followed by the failed, warning and passed groups (each the corresponding
status filter of the per-file results, in report order, with per-violation
icon, regulation citation and optional suggestion) and the fixed footer;
it reads nothing else of the report (in particular not the summary) and
recomputes no count. -/
theorem generateMarkdownReport_spec (report : ComplianceReport) :
    (generateMarkdownReport report =
      specMdSummary report ++
      specMdFailedFiles (report.fileResults.filter (fun r => r.status == Status.FAIL)) ++
      specMdWarningFiles (report.fileResults.filter (fun r => r.status == Status.WARNING)) ++
      specMdPassedFiles (report.fileResults.filter (fun r => r.status == Status.PASS)) ++
      specMdFooter) ∧
    (∀ s, generateMarkdownReport { report with summary := s } =
      generateMarkdownReport report) :=
  ⟨rfl, fun _ => rfl⟩

/-- Counterexample to C8 as stated: two runs on the identical documents and
configuration, performed at different clock times, produce different
reports — INSP-001 reads the clock. -/
theorem checkFiles_clock_dependent :
    checkFiles airOnlyOptions oneFileGlob clockSensitiveRead 1579046400000 ["docs"] ≠
    checkFiles airOnlyOptions oneFileGlob clockSensitiveRead 1700000000000 ["docs"] := by
  intro h
  have h4 : (checkFiles airOnlyOptions oneFileGlob clockSensitiveRead 1579046400000
      ["docs"]).totalViolations = 4 := by decide
  have h5 : (checkFiles airOnlyOptions oneFileGlob clockSensitiveRead 1700000000000
      ["docs"]).totalViolations = 5 := by decide
  rw [h, h5] at h4
  exact absurd h4 (by decide)

theorem runRules_now_eq (rules : List ComplianceRule) (n₁ n₂ : Int)
    (content filename : String)
    (h : ∀ r ∈ rules, r.check n₁ content filename = r.check n₂ content filename) :
    runRules rules n₁ content filename = runRules rules n₂ content filename := by
  induction rules with
  | nil => rfl
  | cons r rs ih =>
    have hr := h r (List.mem_cons_self _ _)
    have ihh := ih (fun x hx => h x (List.mem_cons_of_mem _ hx))
    simp [runRules, hr, ihh]

theorem check_now_independent :
    ∀ r ∈ maintenanceLogRules ++ pilotLogRules ++ weightBalanceRules,
      ∀ (n₁ n₂ : Int) (content filename : String),
        r.check n₁ content filename = r.check n₂ content filename := by
  intro r hr n₁ n₂ content filename
  simp only [maintenanceLogRules, pilotLogRules, weightBalanceRules, List.mem_append,
    List.mem_cons, List.not_mem_nil, or_false] at hr
  rcases hr with ((rfl | rfl | rfl | rfl) | (rfl | rfl | rfl)) | rfl <;> rfl

theorem if_mem_cases {α : Type} {r : α} {c : Prop} [Decidable c] {l : List α}
    (h : r ∈ if c then l else []) : r ∈ l := by
  split at h
  · exact h
  · exact absurd h (List.not_mem_nil _)

theorem loadRules_no_air_mem (options : CheckOptions)
    (hair : options.checkAirworthiness = false) :
    ∀ r ∈ loadRules options,
      r ∈ maintenanceLogRules ++ pilotLogRules ++ weightBalanceRules := by
  intro r hr
  unfold loadRules at hr
  simp only [List.mem_append] at hr
  simp only [List.mem_append]
  rcases hr with ((h1 | h2) | h3) | h4
  · exact Or.inl (Or.inl (if_mem_cases h1))
  · exact Or.inl (Or.inr (if_mem_cases h2))
  · rw [hair] at h3
    simp at h3
  · exact Or.inr (if_mem_cases h4)

/-- Amendment of C8 that the code satisfies: two runs on identical document
lists and configuration produce identical reports whenever they evaluate
at the same clock time, and at arbitrary clock times whenever the
airworthiness category is disabled (INSP-001 being the only rule that
consults the clock). -/
theorem checkFiles_deterministic (options : CheckOptions)
    (globResolve : String → List String) (readContent : String → String)
    (n₁ n₂ : Int) (patterns : List String)
    (h : n₁ = n₂ ∨ options.checkAirworthiness = false) :
    checkFiles options globResolve readContent n₁ patterns =
    checkFiles options globResolve readContent n₂ patterns := by
  rcases h with rfl | hair
  · rfl
  · have hmap : (findFiles globResolve patterns).map
        (fun f => (checkFile (loadRules options) n₁ f (readContent f)).1) =
      (findFiles globResolve patterns).map
        (fun f => (checkFile (loadRules options) n₂ f (readContent f)).1) := by
      apply List.map_congr_left
      intro f _
      have hrun := runRules_now_eq (loadRules options) n₁ n₂ (readContent f) f
        (fun r hr => check_now_independent r (loadRules_no_air_mem options hair r hr)
          n₁ n₂ (readContent f) f)
      simp only [checkFile, hrun]
    show generateReport ((findFiles globResolve patterns).map
        (fun f => (checkFile (loadRules options) n₁ f (readContent f)).1)) =
      generateReport ((findFiles globResolve patterns).map
        (fun f => (checkFile (loadRules options) n₂ f (readContent f)).1))
    rw [hmap]

/-- Witness for the amended C8: with airworthiness disabled, runs at two
different times agree. -/
theorem checkFiles_deterministic_witness :
    checkFiles (⟨true, true, false, true⟩ : CheckOptions) (fun _ => ["a.md"])
      (fun _ => "night flight") 0 ["p"] =
    checkFiles (⟨true, true, false, true⟩ : CheckOptions) (fun _ => ["a.md"])
      (fun _ => "night flight") 987654321 ["p"] :=
  checkFiles_deterministic _ _ _ _ _ _ (Or.inr rfl)

end Aviation
